import Mathlib

/-!
Shallow embedding of the ASCII comment-banner generator
(`src/apps/gradio_app.py`) and verification of its specification.

Python strings are modelled as `List Char`; Python `int` as `Int`.
The functions `_repeat_pattern` and `make_banner` are translated
line-by-line from the source.  Python's `str.ljust`, `str.rjust` and
`str.center` (CPython `unicode_center`: `left = marg/2 + (marg & width & 1)`)
are embedded as `ljust`, `rjust`, `center`.  The source joins the produced
lines with a single newline; here `render`/`make_banner` return the list of
lines, which is what the specification's claims quantify over.
-/

/-- The space character used for padding (Python `" "`). -/
def SP : Char := ' '

/-- Python `str.ljust(w)`: the string followed by spaces up to width `w`;
returned unchanged when `w ≤ len`. -/
def ljust (s : List Char) (w : Nat) : List Char :=
  s ++ List.replicate (w - s.length) SP

/-- Python `str.rjust(w)`: spaces followed by the string;
returned unchanged when `w ≤ len`. -/
def rjust (s : List Char) (w : Nat) : List Char :=
  List.replicate (w - s.length) SP ++ s

/-- Python `str.center(w)` (CPython `unicode_center`):
`marg = w - len`, `left = marg / 2 + (marg &&& w &&& 1)`, pad left and
`marg - left` right; returned unchanged when `w ≤ len`. -/
def center (s : List Char) (w : Nat) : List Char :=
  if w ≤ s.length then s
  else
    let marg := w - s.length
    let left := marg / 2 + (marg &&& w &&& 1)
    List.replicate left SP ++ s ++ List.replicate (marg - left) SP

/-- `_repeat_pattern` from the source: repeat/cycle `pattern` until
`length` characters are filled; an empty pattern falls back to `"-"`.
`zip(range(length), cycle(pattern))` yields character `pattern[i % len]`
at index `i`. -/
def repeat_pattern (pattern : List Char) (length : Nat) : List Char :=
  let p := if pattern.isEmpty then ['-'] else pattern
  (List.range length).map (fun i => p.getD (i % p.length) '-')

/-- `COMMENT_STYLES` from the source: ordered mapping from UI style name to
`(start_delim, end_delim)`.  The Python dict literal repeats the key
`"<# … #> (PowerShell block comment)"` with an identical value (dict
semantics keep the last, which equals the first), so an association list
with first-match lookup has the same lookup function. -/
def COMMENT_STYLES : List (String × String × String) :=
  [ ("# (sh, Python, Ruby, etc.)", "#", "#"),
    ("// (C‑family, JavaScript, Go, Rust…)", "//", "//"),
    ("; (MASM/TASM, Lisp families)", ";", ";"),
    ("-- (SQL, Haskell, Ada, VHDL…)", "--", "--"),
    ("% (MATLAB/Octave, LaTeX)", "%", "%"),
    ("\x27 (VB, VBA, VB.NET)", "\x27", "\x27"),
    ("\x60 (legacy shell)", "\x60", "\x60"),
    ("REM (Batch files)", "REM", "REM"),
    (":: (Batch hack, works in PowerShell)", "::", "::"),
    (";; (Racket, Scheme, Clojure read‑time comment)", ";;", ";;"),
    ("<!-- … --> (HTML / XML)", "<!--", "-->"),
    ("/* … */ (C‑style block)", "/*", "*/"),
    ("\"\"\" … \"\"\" (Python doc‑string, Elixir multi‑line string)", "\"\"\"", "\"\"\""),
    ("--[[ … ]] (Lua block comment)", "--[[", "]]"),
    ("#= … =# (Julia block comment)", "#=", "=#"),
    ("#| … |# (Clojure / CLisp / Racket block)", "#|", "|#"),
    ("<# … #> (PowerShell block comment)", "<#", "#>"),
    ("=begin … =end (Ruby block comment)", "=begin", "=end"),
    ("# (Python line comment)", "#", "#"),
    ("\"\"\" (Python triple‑quote doc‑string)", "\"\"\"", "\"\"\""),
    ("# (Ruby line comment)", "#", "#"),
    ("=begin/=end (Ruby block comment)", "=begin", "=end"),
    ("REM (PowerShell line comment)", "#", "#"),
    ("\x27 (SQL single‑quote comment – rarely used)", "\x27", "\x27"),
    ("-- (Ada line comment)", "--", "--"),
    ("-- (COBOL comment – column 7)", "--", "--"),
    ("\x60 (Tcl comment – back‑tick rarely used)", "\x60", "\x60"),
    ("/* … */ (CSS / Less / Sass SCSS)", "/*", "*/"),
    ("/* … */ (GraphQL SDL – same as C‑style)", "/*", "*/"),
    ("# (PowerShell line comment – alias for \x27--\x27)", "#", "#"),
    ("<!-- … --> (Markdown – HTML comment inside MD)", "<!--", "-->"),
    ("<!-- … --> (Asciidoc comment)", "<!--", "-->") ]

/-- Look a style key up in `COMMENT_STYLES` (Python `COMMENT_STYLES[style]`). -/
def lookup_style (style : String) : Option (String × String) :=
  (COMMENT_STYLES.find? (fun kv => kv.1 = style)).map (·.2)

/-- Lower-case hexadecimal digit, as used by CPython string escapes. -/
def hex_digit (n : Nat) : Char :=
  "0123456789abcdef".data.getD n '0'

/-- CPython `repr` quote selection (`unicode_repr`): a single quote unless
the string contains a single quote and no double quote, in which case a
double quote. -/
def py_quote (style : String) : Char :=
  if style.data.contains '\x27' && !(style.data.contains '"') then '"'
  else '\x27'

/-- CPython `repr` escaping of one character, given the surrounding quote:
a backslash and the quote character are backslash-escaped, tab, newline
and carriage return become `\t`/`\n`/`\r`, and the remaining ASCII control
characters (below `0x20`, and `0x7f`) become `\xHH`.  Characters from
`0x80` upward are kept verbatim here — CPython additionally escapes the
non-printable ones among them, which no theorem below depends on. -/
def py_escape_char (quote c : Char) : List Char :=
  if c = '\\' then ['\\', '\\']
  else if c = quote then ['\\', quote]
  else if c = '\t' then ['\\', 't']
  else if c = '\n' then ['\\', 'n']
  else if c = '\r' then ['\\', 'r']
  else if c.toNat < 0x20 ∨ c.toNat = 0x7f then
    ['\\', 'x', hex_digit (c.toNat / 16), hex_digit (c.toNat % 16)]
  else [c]

/-- CPython `repr` of a string: the chosen quote, each character escaped,
the closing quote. -/
def py_repr (style : String) : List Char :=
  py_quote style :: style.data.flatMap (py_escape_char (py_quote style))
    ++ [py_quote style]

/-- The message of the `ValueError` raised for an unknown style
(`f"Unsupported comment style: {style!r}"`), with `!r` modelled by
`py_repr`. -/
def unknown_style_msg (style : String) : List Char :=
  "Unsupported comment style: ".data ++ py_repr style

/-- Executable substring test: `key` occurs contiguously in `msg`.  Used to
state whether an error message contains the offending style key. -/
def has_substring (msg key : List Char) : Bool :=
  (List.range (msg.length + 1)).any
    (fun i => decide ((msg.drop i).take key.length = key))

/-- Lines 105-107 of the source: `usable = width - (len(start)+len(end)+4)`,
clamped to `1` when below `1`. -/
def usable_width (s e : List Char) (width : Int) : Nat :=
  let u : Int := width - (s.length + e.length + 4)
  if u < 1 then 1 else u.toNat

/-- The effective width after the clamp of line 108: the caller's `width`
when `usable ≥ 1`, otherwise the recomputed `len(start)+len(end)+5`. -/
def effective_width (s e : List Char) (width : Int) : Int :=
  if width - (s.length + e.length + 4) < 1 then (s.length + e.length + 5 : Int)
  else width

/-- `f"{start} " + mid + f" {end}"`: the common frame of every line. -/
def wrap_line (s e mid : List Char) : List Char :=
  s ++ [SP] ++ mid ++ [SP] ++ e

/-- Line 111 of the source: the top/bottom border line. -/
def border_line (s e filler : List Char) (usable : Nat) : List Char :=
  wrap_line s e (repeat_pattern filler usable)

/-- Lines 113-119: horizontal alignment of the caption inside the field;
anything other than `"left"`/`"right"` takes the centre branch. -/
def inner_field (text : List Char) (h_align : String) (usable : Nat) : List Char :=
  if h_align = "left" then ljust text usable
  else if h_align = "right" then rjust text usable
  else center text usable

/-- Line 121: the caption line. -/
def caption_line (text : List Char) (h_align : String) (s e : List Char)
    (usable : Nat) : List Char :=
  wrap_line s e (inner_field text h_align usable)

/-- Line 122: the all-spaces padding line. -/
def empty_line (s e : List Char) (usable : Nat) : List Char :=
  wrap_line s e (List.replicate usable SP)

/-- Lines 124-135: clamp `height` to `≥ 3` and split the vertical padding
`pad_total = height - 3` according to `v_align`; anything other than
`"top"`/`"bottom"` takes the centre branch. -/
def vertical_pads (height : Int) (v_align : String) : Nat × Nat :=
  let pad_total : Nat := (max height 3 - 3).toNat
  if v_align = "top" then (0, pad_total)
  else if v_align = "bottom" then (pad_total, 0)
  else (pad_total / 2, pad_total - pad_total / 2)

/-- The layout engine of `make_banner` (lines 103-144), with the delimiter
pair already resolved: the spec's `render`.  Returns the list of lines
(the source joins them with `"\n"`). -/
def render (text : List Char) (width height : Int) (h_align v_align : String)
    (s e filler : List Char) : List (List Char) :=
  let usable := usable_width s e width
  let pads := vertical_pads height v_align
  [border_line s e filler usable]
    ++ List.replicate pads.1 (empty_line s e usable)
    ++ [caption_line text h_align s e usable]
    ++ List.replicate pads.2 (empty_line s e usable)
    ++ [border_line s e filler usable]

/-- `make_banner` from the source: resolve the style key (raising
`ValueError` — the spec's `UnknownStyleError` — when absent) and lay the
banner out. -/
def make_banner (text : List Char) (width height : Int)
    (h_align v_align : String) (style : String) (filler : List Char) :
    Except (List Char) (List (List Char)) :=
  match lookup_style style with
  | none => .error (unknown_style_msg style)
  | some (st, en) =>
    .ok (render text width height h_align v_align st.data en.data filler)

/-! ## Helper lemmas -/

/-- `_repeat_pattern` always produces exactly `length` characters. -/
theorem repeat_pattern_length (p : List Char) (n : Nat) :
    (repeat_pattern p n).length = n := by
  simp [repeat_pattern]

/-- The frame adds `len(start) + len(end) + 2` characters around the field. -/
theorem wrap_line_length (s e mid : List Char) :
    (wrap_line s e mid).length = s.length + e.length + 2 + mid.length := by
  simp [wrap_line]
  omega

/-- Python `ljust` pads up to `w` when the string fits. -/
theorem ljust_length (s : List Char) (w : Nat) (h : s.length ≤ w) :
    (ljust s w).length = w := by
  simp [ljust]
  omega

/-- Python `rjust` pads up to `w` when the string fits. -/
theorem rjust_length (s : List Char) (w : Nat) (h : s.length ≤ w) :
    (rjust s w).length = w := by
  simp [rjust]
  omega

/-- Python `center` pads up to `w` when the string fits. -/
theorem center_length (s : List Char) (w : Nat) (h : s.length ≤ w) :
    (center s w).length = w := by
  unfold center
  split
  next hw => omega
  next hw =>
    simp only [List.length_append, List.length_replicate]
    rw [Nat.and_one_is_mod]
    omega

/-- The aligned field has exactly `usable` characters when the caption fits,
whatever the alignment value. -/
theorem inner_field_length (text : List Char) (ha : String) (u : Nat)
    (h : text.length ≤ u) : (inner_field text ha u).length = u := by
  unfold inner_field
  split
  · exact ljust_length text u h
  split
  · exact rjust_length text u h
  · exact center_length text u h

/-- Every line of `render` is the border line, the padding line or the
caption line. -/
theorem mem_render (text : List Char) (width height : Int) (ha va : String)
    (s e filler : List Char) :
    ∀ line ∈ render text width height ha va s e filler,
      line = border_line s e filler (usable_width s e width) ∨
      line = empty_line s e (usable_width s e width) ∨
      line = caption_line text ha s e (usable_width s e width) := by
  intro line hline
  simp only [render, List.mem_append, List.mem_singleton,
    List.mem_replicate] at hline
  tauto

/-- If `msg` splits as `l ++ key ++ r` then the substring test finds
`key` in `msg` (so a `false` test refutes every such split). -/
theorem has_substring_of_eq_append (msg key : List Char)
    (h : ∃ l r, msg = l ++ key ++ r) : has_substring msg key = true := by
  obtain ⟨l, r, rfl⟩ := h
  unfold has_substring
  rw [List.any_eq_true]
  refine ⟨l.length, ?_, ?_⟩
  · rw [List.mem_range]
    simp only [List.length_append]
    omega
  · rw [decide_eq_true_eq, List.append_assoc, List.drop_left,
      List.take_left]

/-- A character untouched by CPython escaping maps to itself, so a string
of such characters passes through `flatMap` unchanged. -/
theorem flatMap_escape_id (quote : Char) (L : List Char)
    (h : ∀ c ∈ L, py_escape_char quote c = [c]) :
    L.flatMap (py_escape_char quote) = L := by
  induction L with
  | nil => rfl
  | cons c L ih =>
    rw [List.flatMap_cons, h c (List.mem_cons_self c L),
      ih (fun x hx => h x (List.mem_cons_of_mem c hx))]
    rfl

/-! ## Claim theorems -/

/-- C1 counterexample: with the registered `#` style at width 30, every
line of the banner has length 28, not the effective width 30 — the claim
that each line's length equals the post-clamp effective width is false. -/
theorem c1_counterexample :
    make_banner "X".data 30 3 "center" "center"
      "# (sh, Python, Ruby, etc.)" ['-'] =
      .ok ["# ------------------------ #".data,
           "#            X             #".data,
           "# ------------------------ #".data] ∧
    "# ------------------------ #".data.length ≠
      (effective_width "#".data "#".data 30).toNat :=
  ⟨by rfl, by decide⟩

/-- C1 amended: for every registered style key and every caption that fits,
every line of the output has length exactly `effective width - 2` (the
code subtracts `len(start)+len(end)+4` instead of `+2` when computing the
usable width, so each line falls two characters short of the requested
width). -/
theorem c1_line_lengths (style st en : String) (text filler : List Char)
    (width height : Int) (ha va : String)
    (_hstyle : lookup_style style = some (st, en))
    (hfit : text.length ≤ usable_width st.data en.data width) :
    ∀ line ∈ render text width height ha va st.data en.data filler,
      (line.length : Int) = effective_width st.data en.data width - 2 := by
  intro line hline
  have hchar := mem_render text width height ha va st.data en.data filler
    line hline
  have hlen : line.length =
      st.data.length + en.data.length + 2 + usable_width st.data en.data width := by
    rcases hchar with h | h | h <;> subst h
    · rw [border_line, wrap_line_length, repeat_pattern_length]
    · rw [empty_line, wrap_line_length, List.length_replicate]
    · rw [caption_line, wrap_line_length, inner_field_length text ha _ hfit]
  rw [hlen]
  by_cases hc : width - ((st.data.length : Int) + en.data.length + 4) < 1 <;>
    simp [usable_width, effective_width, hc] <;> omega

/-- C1 witness: at the `#` style, caption `"OK"`, width 10, the border
line has length 8 = 10 - 2. -/
theorem c1_witness :
    (("# ---- #".data.length : Int)) =
      effective_width "#".data "#".data 10 - 2 := by
  have h := c1_line_lengths "# (sh, Python, Ruby, etc.)" "#" "#"
    "OK".data ['-'] 10 3 "left" "top" (by decide) (by decide)
    "# ---- #".data (by decide)
  simpa using h

/-- C2 counterexample: for caption `"HI"`, width 20, height 3, centred both
ways, `#` style and `-` filler, the border line is the 18-character
`"# -------------- #"` with 14 dashes — not the 20-character
`"# ---------------- #"` with 16 dashes that the claim states. -/
theorem c2_counterexample :
    make_banner "HI".data 20 3 "center" "center"
      "# (sh, Python, Ruby, etc.)" ['-'] =
      .ok ["# -------------- #".data,
           "#       HI       #".data,
           "# -------------- #".data] ∧
    "# -------------- #".data ≠ "# ---------------- #".data :=
  ⟨by rfl, by decide⟩

/-- C2 amended: in the same scenario the top and bottom border lines are
exactly `"# -------------- #"` (14 dashes, 18 characters) and the caption
line centres `"HI"` within a 14-character field (6 spaces each side). -/
theorem c2_example_scenario :
    make_banner "HI".data 20 3 "center" "center"
      "# (sh, Python, Ruby, etc.)" ['-'] =
      .ok ["# -------------- #".data,
           "#       HI       #".data,
           "# -------------- #".data] ∧
    usable_width "#".data "#".data 20 = 14 ∧
    center "HI".data 14 =
      List.replicate 6 SP ++ "HI".data ++ List.replicate 6 SP :=
  ⟨by rfl, by decide, by decide⟩

/-- C3: the output has exactly `max(height, 3)` lines, assembled as one
border line, `padTop` empty lines, the caption line, `padBottom` empty
lines and one border line, where `padTotal = max(height,3) - 3` and the
split is `(0, padTotal)` for top, `(padTotal, 0)` for bottom and
`(padTotal / 2, padTotal - padTotal / 2)` for centre. -/
theorem c3_vertical_layout (style st en : String) (text filler : List Char)
    (width height : Int) (ha va : String)
    (hstyle : lookup_style style = some (st, en)) :
    make_banner text width height ha va style filler =
      .ok ([border_line st.data en.data filler (usable_width st.data en.data width)]
        ++ List.replicate (vertical_pads height va).1
            (empty_line st.data en.data (usable_width st.data en.data width))
        ++ [caption_line text ha st.data en.data (usable_width st.data en.data width)]
        ++ List.replicate (vertical_pads height va).2
            (empty_line st.data en.data (usable_width st.data en.data width))
        ++ [border_line st.data en.data filler (usable_width st.data en.data width)]) ∧
    (render text width height ha va st.data en.data filler).length =
      (max height 3).toNat ∧
    (vertical_pads height va).1 + (vertical_pads height va).2 =
      (max height 3).toNat - 3 ∧
    (va = "top" → vertical_pads height va = (0, (max height 3).toNat - 3)) ∧
    (va = "bottom" → vertical_pads height va = ((max height 3).toNat - 3, 0)) ∧
    (va = "center" → vertical_pads height va =
      (((max height 3).toNat - 3) / 2,
        ((max height 3).toNat - 3) - ((max height 3).toNat - 3) / 2)) := by
  have hmax3 : (3 : Int) ≤ max height 3 := le_max_right height 3
  have htot : (max height 3 - 3).toNat = (max height 3).toNat - 3 := by omega
  have hsum : (vertical_pads height va).1 + (vertical_pads height va).2 =
      (max height 3).toNat - 3 := by
    rw [← htot]
    unfold vertical_pads
    split
    · simp
    split
    · simp
    · simp
      omega
  refine ⟨by simp [make_banner, hstyle, render], ?_, hsum, ?_, ?_, ?_⟩
  · simp only [render, List.length_append, List.length_replicate,
      List.length_singleton]
    omega
  · intro hva
    simp [vertical_pads, hva, htot]
  · intro hva
    simp [vertical_pads, hva, htot]
  · intro hva
    simp [vertical_pads, hva, htot]

/-- C3 witness: at the `#` style, width 12, height 6, the output has
`max(6,3) = 6` lines. -/
theorem c3_witness :
    (render "HI".data 12 6 "left" "center" "#".data "#".data ['-']).length =
      (max (6 : Int) 3).toNat :=
  (c3_vertical_layout "# (sh, Python, Ruby, etc.)" "#" "#" "HI".data ['-']
    12 6 "left" "center" (by decide)).2.1

/-- C4: whenever `width - (len(start)+len(end)+4) < 1`, the usable width is
clamped to exactly 1, the effective width is recomputed as
`len(start)+len(end)+5`, and the whole output equals the output for the
recomputed width (the clamp is applied consistently to every line; the
computation is total, with no negative-length repetition). -/
theorem c4_clamp (s e text filler : List Char) (width height : Int)
    (ha va : String)
    (hsmall : width - ((s.length : Int) + e.length + 4) < 1) :
    usable_width s e width = 1 ∧
    effective_width s e width = (s.length : Int) + e.length + 5 ∧
    usable_width s e ((s.length : Int) + e.length + 5) = 1 ∧
    render text width height ha va s e filler =
      render text ((s.length : Int) + e.length + 5) height ha va s e filler := by
  have h1 : usable_width s e width = 1 := by
    simp [usable_width, hsmall]
  have h3 : usable_width s e ((s.length : Int) + e.length + 5) = 1 := by
    simp [usable_width]
  refine ⟨h1, by simp [effective_width, hsmall], h3, ?_⟩
  simp only [render, h1, h3]

/-- C4 witness: at width 0 with the `#`/`#` pair the clamp fires and yields
usable width 1. -/
theorem c4_witness : usable_width "#".data "#".data 0 = 1 :=
  (c4_clamp "#".data "#".data "T".data ['-'] 0 3 "left" "top" (by decide)).1

/-- C5: the border filler string has exactly `n` characters; an empty
pattern is replaced by `"-"`; and for a non-empty pattern the `i`-th
character is `pattern[i % len(pattern)]` — a long pattern is truncated from
its first character and a short one repeats cyclically. -/
theorem c5_pattern_cycling (p : List Char) (n : Nat) :
    (repeat_pattern p n).length = n ∧
    (p = [] → repeat_pattern p n = repeat_pattern ['-'] n) ∧
    (p ≠ [] → ∀ i, i < n →
      (repeat_pattern p n).getD i '-' = p.getD (i % p.length) '-') := by
  refine ⟨repeat_pattern_length p n, ?_, ?_⟩
  · intro hp
    subst hp
    rfl
  · intro hp i hi
    have hip : i < (repeat_pattern p n).length := by
      rw [repeat_pattern_length]; exact hi
    have hpe : p.isEmpty = false := by
      simp [List.isEmpty_iff, hp]
    rw [List.getD_eq_getElem _ _ hip]
    simp only [repeat_pattern, hpe, if_neg Bool.false_ne_true]
    rw [List.getElem_map, List.getElem_range]

/-- C5 witness: pattern `"ab"` cycled to length 5 has character
`pattern[4 % 2] = 'a'` at index 4. -/
theorem c5_witness :
    (repeat_pattern ['a', 'b'] 5).getD 4 '-' =
      (['a', 'b'].getD (4 % 2) '-') :=
  (c5_pattern_cycling ['a', 'b'] 5).2.2 (by decide) 4 (by decide)

/-- C6 counterexample: caption `"AB"` in a field of usable width 5 leaves
an odd leftover of 3, yet the extra space lands on the leading side
(`"  AB "`, 2 left / 1 right), not the trailing side as the claim states. -/
theorem c6_counterexample :
    make_banner "AB".data 11 3 "center" "center"
      "# (sh, Python, Ruby, etc.)" ['-'] =
      .ok ["# ----- #".data, "#   AB  #".data, "# ----- #".data] ∧
    inner_field "AB".data "center" 5 = "  AB ".data ∧
    "  AB ".data ≠ " AB  ".data :=
  ⟨by rfl, by decide, by decide⟩

/-- C6 amended: with a fitting caption and an odd leftover, CPython's
`str.center` places the extra space on the trailing side exactly when the
field width `usable` is even, and on the leading side when `usable` is odd
(`left = marg // 2 + (marg & width & 1)`). -/
theorem c6_center_tiebreak (text : List Char) (usable : Nat)
    (hfit : text.length ≤ usable)
    (hodd : (usable - text.length) % 2 = 1) :
    center text usable =
      List.replicate (if usable % 2 = 0 then (usable - text.length) / 2
        else (usable - text.length) / 2 + 1) SP
      ++ text ++
      List.replicate (if usable % 2 = 0 then (usable - text.length) / 2 + 1
        else (usable - text.length) / 2) SP := by
  unfold center
  split
  next hle => exfalso; omega
  next hgt =>
    have hbit : (usable - text.length) &&& usable &&& 1 = usable % 2 := by
      rw [Nat.and_assoc, Nat.and_one_is_mod]
      rcases Nat.mod_two_eq_zero_or_one usable with h2 | h2 <;> rw [h2]
      · exact Nat.and_zero _
      · rw [Nat.and_one_is_mod, hodd]
    simp only [hbit]
    rcases Nat.mod_two_eq_zero_or_one usable with h2 | h2 <;> rw [h2]
    · rw [if_pos rfl, if_pos rfl]
      have e2 : usable - text.length - ((usable - text.length) / 2 + 0) =
          (usable - text.length) / 2 + 1 := by omega
      rw [e2, Nat.add_zero]
    · rw [if_neg (by omega), if_neg (by omega)]
      have e2 : usable - text.length - ((usable - text.length) / 2 + 1) =
          (usable - text.length) / 2 := by omega
      rw [e2]

/-- C6 witness: caption `"A"` in an even field of width 4 (leftover 3,
odd): one leading and two trailing spaces — extra space trailing. -/
theorem c6_witness : center ['A'] 4 = [SP, 'A', SP, SP] :=
  (c6_center_tiebreak ['A'] 4 (by decide) (by decide)).trans (by decide)

/-- C7 counterexample: for the unregistered key `"a\b"` (one backslash)
the raised message is `Unsupported comment style: 'a\\b'` — `repr` doubles
the backslash, so the message does not contain the offending key
verbatim, refuting the claim's "message includes the offending key". -/
theorem c7_counterexample :
    make_banner "T".data 10 3 "left" "top" "a\\b" ['-'] =
      .error (unknown_style_msg "a\\b") ∧
    unknown_style_msg "a\\b" =
      "Unsupported comment style: \x27a\\\\b\x27".data ∧
    has_substring (unknown_style_msg "a\\b") "a\\b".data = false :=
  ⟨by rfl, by decide, by decide⟩

/-- C7 amended: an unregistered style key makes `make_banner` fail with the
unknown-style error — whose message contains the `repr` of the offending
key, and the key verbatim whenever the key consists of printable ASCII
characters other than backslash and quotes — returning no partial result;
a registered key never produces this error. -/
theorem c7_unknown_style (style : String) (text filler : List Char)
    (width height : Int) (ha va : String) :
    (lookup_style style = none →
      make_banner text width height ha va style filler =
        .error (unknown_style_msg style) ∧
      (∃ l r, unknown_style_msg style = l ++ py_repr style ++ r) ∧
      ((∀ c ∈ style.data, 0x20 ≤ c.toNat ∧ c.toNat < 0x7f ∧
          c ≠ '\\' ∧ c ≠ '\x27' ∧ c ≠ '"') →
        ∃ l r, unknown_style_msg style = l ++ style.data ++ r)) ∧
    (∀ st en, lookup_style style = some (st, en) →
      make_banner text width height ha va style filler =
        .ok (render text width height ha va st.data en.data filler)) := by
  constructor
  · intro h
    refine ⟨by simp [make_banner, h], ?_, ?_⟩
    · exact ⟨"Unsupported comment style: ".data, [],
        by simp [unknown_style_msg]⟩
    · intro hguard
      have hq : py_quote style = '\x27' := by
        unfold py_quote
        cases hcon : style.data.contains '\x27' with
        | false => simp [hcon]
        | true =>
          exfalso
          have hmem : '\x27' ∈ style.data := List.elem_iff.mp hcon
          exact (hguard '\x27' hmem).2.2.2.1 rfl
      have hesc : ∀ c ∈ style.data, py_escape_char '\x27' c = [c] := by
        intro c hc
        obtain ⟨h1, h2, h3, h4, h5⟩ := hguard c hc
        have ht : c ≠ '\t' := by
          intro he; subst he; exact absurd h1 (by decide)
        have hn : c ≠ '\n' := by
          intro he; subst he; exact absurd h1 (by decide)
        have hr : c ≠ '\r' := by
          intro he; subst he; exact absurd h1 (by decide)
        have hctl : ¬(c.toNat < 0x20 ∨ c.toNat = 0x7f) := by omega
        unfold py_escape_char
        rw [if_neg h3, if_neg h4, if_neg ht, if_neg hn, if_neg hr,
          if_neg hctl]
      refine ⟨"Unsupported comment style: ".data ++ ['\x27'], ['\x27'], ?_⟩
      unfold unknown_style_msg py_repr
      rw [hq, flatMap_escape_id '\x27' style.data hesc]
      simp
  · intro st en h
    simp [make_banner, h]

/-- C7 witness: the unregistered plain-ASCII key `"nope"` fails with the
unknown-style error, and its message contains the key verbatim. -/
theorem c7_witness :
    make_banner "T".data 10 3 "left" "top" "nope" ['-'] =
      .error (unknown_style_msg "nope") ∧
    has_substring (unknown_style_msg "nope") "nope".data = true := by
  have h := (c7_unknown_style "nope" "T".data ['-'] 10 3 "left" "top").1
    (by decide)
  exact ⟨h.1, has_substring_of_eq_append _ _ (h.2.2 (by decide))⟩

/-- C8 counterexample: the unrecognized alignments `"diagonal"` and
`"middle"` do not fail with an alignment error: `make_banner` succeeds and
silently produces the centred banner. -/
theorem c8_counterexample :
    make_banner "UP".data 11 3 "diagonal" "middle"
      "# (sh, Python, Ruby, etc.)" ['-'] =
      .ok ["# ----- #".data, "#   UP  #".data, "# ----- #".data] ∧
    make_banner "UP".data 11 3 "diagonal" "middle"
      "# (sh, Python, Ruby, etc.)" ['-'] =
      make_banner "UP".data 11 3 "center" "center"
        "# (sh, Python, Ruby, etc.)" ['-'] :=
  ⟨by rfl, by rfl⟩

/-- C8 amended: there is no `InvalidAlignmentError`; every alignment value
other than `"left"`/`"right"` (horizontal) and `"top"`/`"bottom"`
(vertical) is silently treated as centre, and the call succeeds. -/
theorem c8_silent_center (style st en : String) (text filler : List Char)
    (width height : Int) (ha va : String)
    (hha1 : ha ≠ "left") (hha2 : ha ≠ "right")
    (hva1 : va ≠ "top") (hva2 : va ≠ "bottom")
    (hstyle : lookup_style style = some (st, en)) :
    make_banner text width height ha va style filler =
      make_banner text width height "center" "center" style filler ∧
    make_banner text width height ha va style filler =
      .ok (render text width height ha va st.data en.data filler) := by
  have hinner : ∀ u, inner_field text ha u = inner_field text "center" u := by
    intro u
    have hc : inner_field text "center" u = center text u := rfl
    rw [hc]
    simp [inner_field, hha1, hha2]
  have hv : vertical_pads height va = vertical_pads height "center" := by
    have hc : vertical_pads height "center" =
        ((max height 3 - 3).toNat / 2,
          (max height 3 - 3).toNat - (max height 3 - 3).toNat / 2) := rfl
    rw [hc]
    simp [vertical_pads, hva1, hva2]
  refine ⟨?_, by simp [make_banner, hstyle]⟩
  simp only [make_banner, hstyle, render, caption_line, hinner, hv]

/-- C8 witness: the unrecognized pair `"diag"`/`"mid"` behaves exactly as
centre/centre. -/
theorem c8_witness :
    make_banner "A".data 9 4 "diag" "mid"
      "# (sh, Python, Ruby, etc.)" ['-'] =
      make_banner "A".data 9 4 "center" "center"
        "# (sh, Python, Ruby, etc.)" ['-'] :=
  (c8_silent_center "# (sh, Python, Ruby, etc.)" "#" "#" "A".data ['-'] 9 4
    "diag" "mid" (by decide) (by decide) (by decide) (by decide)
    (by decide)).1

/-- C9 counterexample: caption `"ABCDEF"` overflows the usable width 5 at
width 11 with the `#` style, yet the caption line `"# ABCDEF #"` has
length 10, which does NOT exceed the effective width 11 — the claim's
"length exceeds the effective width" is false. -/
theorem c9_counterexample :
    make_banner "ABCDEF".data 11 3 "center" "center"
      "# (sh, Python, Ruby, etc.)" ['-'] =
      .ok ["# ----- #".data, "# ABCDEF #".data, "# ----- #".data] ∧
    usable_width "#".data "#".data 11 < "ABCDEF".data.length ∧
    "# ABCDEF #".data.length < (effective_width "#".data "#".data 11).toNat :=
  ⟨by rfl, by decide, by decide⟩

/-- C9 amended: an overflowing caption is passed through untruncated: the
caption line is exactly start-SP-caption-SP-end, of length
`len(start)+len(end)+2+len(caption)`, which exceeds the normal line length
`len(start)+len(end)+2+usable` (that is, effective width minus 2) kept by
every other line. -/
theorem c9_overflow_passthrough (text : List Char) (width height : Int)
    (ha va : String) (s e filler : List Char)
    (hover : usable_width s e width < text.length) :
    caption_line text ha s e (usable_width s e width) = wrap_line s e text ∧
    wrap_line s e text ∈ render text width height ha va s e filler ∧
    (wrap_line s e text).length = s.length + e.length + 2 + text.length ∧
    ∀ line ∈ render text width height ha va s e filler,
      line = wrap_line s e text ∨
      line.length = s.length + e.length + 2 + usable_width s e width := by
  have hle : usable_width s e width ≤ text.length := le_of_lt hover
  have h1 : ljust text (usable_width s e width) = text := by
    simp [ljust, Nat.sub_eq_zero_of_le hle]
  have h2 : rjust text (usable_width s e width) = text := by
    simp [rjust, Nat.sub_eq_zero_of_le hle]
  have h3 : center text (usable_width s e width) = text := by
    unfold center
    split
    · rfl
    · exfalso
      omega
  have hpass : inner_field text ha (usable_width s e width) = text := by
    unfold inner_field
    split
    · exact h1
    split
    · exact h2
    · exact h3
  have hcap : caption_line text ha s e (usable_width s e width) =
      wrap_line s e text := by
    rw [caption_line, hpass]
  refine ⟨hcap, ?_, wrap_line_length s e text, ?_⟩
  · rw [← hcap]
    simp [render]
  · intro line hline
    rcases mem_render text width height ha va s e filler line hline
      with h | h | h
    · right
      rw [h, border_line, wrap_line_length, repeat_pattern_length]
    · right
      rw [h, empty_line, wrap_line_length, List.length_replicate]
    · left
      rw [h, hcap]

/-- C9 witness: the full caption line for `"ABCDEF"` appears untruncated in
the width-11 banner. -/
theorem c9_witness :
    wrap_line "#".data "#".data "ABCDEF".data ∈
      render "ABCDEF".data 11 3 "left" "top" "#".data "#".data ['-'] :=
  (c9_overflow_passthrough "ABCDEF".data 11 3 "left" "top" "#".data "#".data
    ['-'] (by decide)).2.1

/-- C10: every output line is the start delimiter, one space, a field, one
space and the end delimiter, and the first and last lines are the same
border line. -/
theorem c10_frame (style st en : String) (text filler : List Char)
    (width height : Int) (ha va : String)
    (_hstyle : lookup_style style = some (st, en)) :
    (∀ line ∈ render text width height ha va st.data en.data filler,
      ∃ mid, line = st.data ++ [SP] ++ mid ++ [SP] ++ en.data) ∧
    (render text width height ha va st.data en.data filler).head? =
      some (border_line st.data en.data filler
        (usable_width st.data en.data width)) ∧
    (render text width height ha va st.data en.data filler).getLast? =
      some (border_line st.data en.data filler
        (usable_width st.data en.data width)) := by
  refine ⟨?_, rfl, ?_⟩
  · intro line hline
    rcases mem_render text width height ha va st.data en.data filler
      line hline with h | h | h <;> subst h
    · exact ⟨repeat_pattern filler _, rfl⟩
    · exact ⟨List.replicate _ SP, rfl⟩
    · exact ⟨inner_field text ha _, rfl⟩
  · have hsplit : render text width height ha va st.data en.data filler =
        ([border_line st.data en.data filler (usable_width st.data en.data width)]
          ++ List.replicate (vertical_pads height va).1
              (empty_line st.data en.data (usable_width st.data en.data width))
          ++ [caption_line text ha st.data en.data (usable_width st.data en.data width)]
          ++ List.replicate (vertical_pads height va).2
              (empty_line st.data en.data (usable_width st.data en.data width)))
          ++ [border_line st.data en.data filler (usable_width st.data en.data width)] := by
      simp [render]
    rw [hsplit, List.getLast?_append_cons]
    rfl

/-- C10 witness: at the `#` style, width 12, the last output line is the
border line. -/
theorem c10_witness :
    (render "HI".data 12 3 "left" "top" "#".data "#".data ['-']).getLast? =
      some (border_line "#".data "#".data ['-']
        (usable_width "#".data "#".data 12)) :=
  (c10_frame "# (sh, Python, Ruby, etc.)" "#" "#" "HI".data ['-'] 12 3
    "left" "top" (by decide)).2.2

